import Mathlib

/-!
Shallow embedding of `src/python_backend/document_processor.py`.

The module keeps an in-memory dict `processing_status : Dict[int, Dict]`,
a background task `process_document`, and two FastAPI endpoints
`start_processing` (POST /process) and `get_status` (GET /status/{id}).

The three "processing steps" in `process_document` are placeholder comments
with no bodies; the only statements between the progress checkpoints are the
checkpoint writes themselves.  Following the spec's view of the stages as
opaque computations that may raise, and Python exception semantics for the
`try`/`except` block, the embedding is parameterised by an `Env` recording
which operation (if any) raises first: one of the three stages, the
`requests.post` of the completion callback, or the `requests.post` of the
error callback.  `datetime.utcnow().isoformat()` is the `now` field of `Env`.

The result of one run records the final store, the sequence of values the
job's record passes through (one entry per store write, in order), the list
of `requests.post` calls made, and the exception (if any) that escapes
`process_document` uncaught.
-/

/-- Request body of POST /process (`DocumentRequest` pydantic model). -/
structure DocumentRequest where
  document_id : Int
  content : String
  metadata : Option (List (String × String)) := none
deriving DecidableEq, Repr

/-- One entry of `processing_status`: status, progress, and the optional
`error` / `completed_at` keys (absent keys modelled as `none`). -/
structure Job where
  status : String
  progress : Rat
  error : Option String := none
  completed_at : Option String := none
deriving DecidableEq, Repr

/-- The in-memory dict `processing_status : Dict[int, Dict]`. -/
def Store := Int → Option Job

/-- The dict at module load: empty. -/
def Store.emptyStore : Store := fun _ => none

/-- `processing_status[k] = j` (also used for in-place mutation of the
record at `k`, which rebinds the key to the mutated dict). -/
def Store.set (s : Store) (k : Int) (j : Job) : Store :=
  fun q => if q = k then some j else s q

/-- The record written by `processing_status[doc.document_id] = {...}`
at the top of `process_document`. -/
def initJob : Job := { status := "processing", progress := 0 }

/-- `processing_status[id]["progress"] = p`. -/
def Job.setProgress (j : Job) (p : Rat) : Job := { j with progress := p }

/-- The `.update({"status": "completed", "progress": 1.0,
"completed_at": ...})` call. -/
def Job.markCompleted (j : Job) (now : String) : Job :=
  { j with status := "completed", progress := 1, completed_at := some now }

/-- The `.update({"status": "error", "error": str(e)})` call in the
`except` handler: progress and completed_at keys are not touched. -/
def Job.markError (j : Job) (e : String) : Job :=
  { j with status := "error", error := some e }

/-- Body of one `requests.post(callback_url, json=...)` call. -/
structure CallbackPayload where
  status : String
  document_id : Int
  error : Option String := none
deriving DecidableEq, Repr

/-- The completion callback body. -/
def completedPayload (id : Int) : CallbackPayload :=
  { status := "completed", document_id := id }

/-- The error callback body. -/
def errorPayload (id : Int) (e : String) : CallbackPayload :=
  { status := "error", document_id := id, error := some e }

/-- Where, if anywhere, an exception is raised during one run of
`process_document`.  `some msg` means the operation raises with
`str(e) = msg`; Python runs the first raiser only. -/
structure Env where
  stage1Fail : Option String := none
  stage2Fail : Option String := none
  stage3Fail : Option String := none
  completedPostFail : Option String := none
  errorPostFail : Option String := none
  now : String := ""

/-- Outcome of one run of `process_document`: final store, the sequence of
values the job's record takes (one per write, in write order), the
`requests.post` calls made, and any exception escaping the function. -/
structure RunResult where
  store : Store
  jobStates : List Job
  posts : List CallbackPayload
  uncaught : Option String

/-- The `except` handler entered while the local `callback_url` is still
unbound (any failure before line 50): the record is set to error, then
evaluating `callback_url` raises `NameError`, which escapes uncaught, so
no `requests.post` call is made. -/
def handleStageError (s : Store) (states : List Job) (id : Int) (j : Job)
    (e : String) : RunResult :=
  let j' := j.markError e
  { store := s.set id j', jobStates := states ++ [j'],
    posts := [], uncaught := some "NameError" }

/-- The background task `process_document`. -/
def process_document (env : Env) (doc : DocumentRequest) (store : Store) :
    RunResult :=
  let id := doc.document_id
  let j0 := initJob
  let s0 := store.set id j0
  match env.stage1Fail with
  | some e => handleStageError s0 [j0] id j0 e
  | none =>
  let j1 := j0.setProgress (3/10)
  let s1 := s0.set id j1
  match env.stage2Fail with
  | some e => handleStageError s1 [j0, j1] id j1 e
  | none =>
  let j2 := j1.setProgress (6/10)
  let s2 := s1.set id j2
  match env.stage3Fail with
  | some e => handleStageError s2 [j0, j1, j2] id j2 e
  | none =>
  let j3 := j2.setProgress (9/10)
  let s3 := s2.set id j3
  let j4 := j3.markCompleted env.now
  let s4 := s3.set id j4
  -- callback_url is bound here (line 50)
  match env.completedPostFail with
  | none =>
      { store := s4, jobStates := [j0, j1, j2, j3, j4],
        posts := [completedPayload id], uncaught := none }
  | some e =>
      -- the completion post raised; the except handler runs with
      -- callback_url bound, so the error post is attempted
      let j5 := j4.markError e
      let s5 := s4.set id j5
      { store := s5, jobStates := [j0, j1, j2, j3, j4, j5],
        posts := [completedPayload id, errorPayload id e],
        uncaught := env.errorPostFail }

/-- Response of POST /process. -/
structure Ack where
  message : String
  document_id : Int
deriving DecidableEq, Repr

/-- An `HTTPException`. -/
structure HTTPError where
  status_code : Nat
  detail : String
deriving DecidableEq, Repr

/-- POST /process: `background_tasks.add_task(process_document, doc)` then
return the acknowledgement.  The store is untouched and the task merely
queued; the response does not depend on the task's outcome. -/
def start_processing (doc : DocumentRequest) (store : Store)
    (tasks : List DocumentRequest) : Ack × Store × List DocumentRequest :=
  ({ message := "Processing started", document_id := doc.document_id },
   store, tasks ++ [doc])

/-- GET /status/{document_id}: 404 when the id has no record, otherwise
the record. -/
def get_status (store : Store) (document_id : Int) : Except HTTPError Job :=
  match store document_id with
  | none => .error { status_code := 404, detail := "Document not found" }
  | some j => .ok j

/-- Stage failures by index (stage 1/2/3 of the pipeline). -/
def stageFail (env : Env) : Fin 3 → Option String
  | 0 => env.stage1Fail
  | 1 => env.stage2Fail
  | 2 => env.stage3Fail

/-- The last progress checkpoint written before stage `k` runs. -/
def priorCheckpoint : Fin 3 → Rat
  | 0 => 0
  | 1 => 3/10
  | 2 => 6/10

/-- The progress values written to the store during a run, in order. -/
def progressWrites (r : RunResult) : List Rat := r.jobStates.map Job.progress

/-! ## Concrete runs used by the theorems -/

/-- A request for document 1. -/
def doc1 : DocumentRequest := { document_id := 1, content := "abc" }

/-- A run in which all three stages succeed and the completion callback
POST raises (network failure on delivery). -/
def envNotifyFail : Env := { completedPostFail := some "ConnectionError", now := "t0" }

/-- A run in which stage 1 raises. -/
def envStage1Fail : Env := { stage1Fail := some "boom" }

/-- A run with no failure anywhere. -/
def envAllOk : Env := { now := "t0" }

/-- A store in which id 1 already holds a finished job. -/
def storeWithCompleted : Store :=
  Store.emptyStore.set 1
    { status := "completed", progress := 1, completed_at := some "t-1" }

/-! ## Theorems for the claims -/

/-- C1: the claim says a delivery failure of the completion callback never
alters the job's status.  In the code the `requests.post` exception is
caught by the same `except Exception` handler as stage failures, which
overwrites the already-completed record with status "error": with the
completion POST raising, the stored status is "error", while the identical
run with delivery succeeding stores "completed". -/
theorem C1_delivery_failure_alters_status :
    ((process_document envNotifyFail doc1 Store.emptyStore).store 1).map Job.status
      = some "error" ∧
    ((process_document envAllOk doc1 Store.emptyStore).store 1).map Job.status
      = some "completed" := by
  constructor <;> rfl

/-- C2: the claim says a stage failure sets completed_at in the same
transition that sets status "error".  In the code the `except` handler's
`.update` writes only status and error, so after a stage-1 failure the
stored record has status "error" with no completed_at key. -/
theorem C2_stage_failure_leaves_completed_at_unset :
    ((process_document envStage1Fail doc1 Store.emptyStore).store 1) =
      some { status := "error", progress := 0, error := some "boom",
             completed_at := none } := by rfl

/-- C3: the claim says creating a job for an id already present fails with
AlreadyExists and never overwrites.  The code's first statement assigns
`processing_status[doc.document_id] = {...}` unconditionally: starting a
run for id 1 over a store already holding a completed job for id 1
replaces it with a fresh record at status "processing", progress 0.0, and
no error of any kind is raised at that point. -/
theorem C3_duplicate_id_silently_overwritten :
    (process_document envAllOk doc1 storeWithCompleted).jobStates.head? =
      some { status := "processing", progress := 0 } ∧
    (process_document envAllOk doc1 storeWithCompleted).uncaught = none := by
  constructor <;> rfl

/-- C4: the claim says exactly one callback is issued per run regardless of
failures.  In the code a stage-1 failure issues zero posts (the handler
dies on the unbound `callback_url` before calling `requests.post`), and a
completion-delivery failure issues two (the failed completion post plus an
error post); only the all-success run issues exactly one. -/
theorem C4_notification_count_violated :
    (process_document envStage1Fail doc1 Store.emptyStore).posts = [] ∧
    (process_document envNotifyFail doc1 Store.emptyStore).posts =
      [completedPayload 1, errorPayload 1 "ConnectionError"] ∧
    (process_document envAllOk doc1 Store.emptyStore).posts =
      [completedPayload 1] := by
  refine ⟨?_, ?_, ?_⟩ <;> rfl

/-- C5: the claim says progress 1.0 is observed only together with status
"completed".  When the completion callback POST raises, the handler
rewrites status to "error" without touching progress, so a status query
afterwards observes status "error" with progress 1.0. -/
theorem C5_error_status_with_progress_one :
    ((process_document envNotifyFail doc1 Store.emptyStore).store 1) =
      some { status := "error", progress := 1, error := some "ConnectionError",
             completed_at := some "t0" } := by rfl

/-- C6: if stage `k` is the first stage to raise, the job's stored record
ends at status "error" with `str(e)` captured verbatim in the error field,
and no later stage runs: no record written during the run carries a
progress value beyond the checkpoint preceding stage `k`. -/
theorem C6_stage_failure_reaches_error (env : Env) (doc : DocumentRequest)
    (store : Store) (k : Fin 3) (msg : String)
    (hk : stageFail env k = some msg)
    (hfirst : ∀ i : Fin 3, i < k → stageFail env i = none) :
    ((process_document env doc store).store doc.document_id).map Job.status
      = some "error" ∧
    ((process_document env doc store).store doc.document_id).bind Job.error
      = some msg ∧
    ∀ j ∈ (process_document env doc store).jobStates,
      j.progress ≤ priorCheckpoint k := by
  fin_cases k
  · have h1 : env.stage1Fail = some msg := hk
    simp [process_document, handleStageError, Store.set, Job.markError,
      initJob, priorCheckpoint, h1]
  · have h0 : env.stage1Fail = none := hfirst 0 (by decide)
    have h1 : env.stage2Fail = some msg := hk
    simp [process_document, handleStageError, Store.set, Job.markError,
      Job.setProgress, initJob, priorCheckpoint, h0, h1]
    norm_num
  · have h0 : env.stage1Fail = none := hfirst 0 (by decide)
    have h1 : env.stage2Fail = none := hfirst 1 (by decide)
    have h2 : env.stage3Fail = some msg := hk
    simp [process_document, handleStageError, Store.set, Job.markError,
      Job.setProgress, initJob, priorCheckpoint, h0, h1, h2]
    norm_num

/-- C6 witness: stage 1 failing with "boom" on document 1. -/
theorem C6_stage_failure_reaches_error_witness :
    (stageFail envStage1Fail 0 = some "boom" ∧
     ∀ i : Fin 3, i < 0 → stageFail envStage1Fail i = none) ∧
    (((process_document envStage1Fail doc1 Store.emptyStore).store
        doc1.document_id).map Job.status = some "error" ∧
     ((process_document envStage1Fail doc1 Store.emptyStore).store
        doc1.document_id).bind Job.error = some "boom" ∧
     ∀ j ∈ (process_document envStage1Fail doc1 Store.emptyStore).jobStates,
       j.progress ≤ priorCheckpoint 0) :=
  ⟨⟨rfl, by decide⟩,
   C6_stage_failure_reaches_error envStage1Fail doc1 Store.emptyStore 0 "boom"
     rfl (by decide)⟩

/-- C7: querying an id that has no record fails with the 404 error and
returns no snapshot. -/
theorem C7_unknown_id_not_found (store : Store) (id : Int)
    (h : store id = none) :
    get_status store id =
      .error { status_code := 404, detail := "Document not found" } := by
  simp [get_status, h]

/-- C7 witness: querying id 999 on the empty store. -/
theorem C7_unknown_id_not_found_witness :
    Store.emptyStore 999 = none ∧
    get_status Store.emptyStore 999 =
      .error { status_code := 404, detail := "Document not found" } :=
  ⟨rfl, C7_unknown_id_not_found Store.emptyStore 999 rfl⟩

/-- C8: in a run with no failure anywhere, the progress values written to
the store are exactly 0.0, 0.3, 0.6, 0.9, 1.0 in that order, a
non-decreasing sequence. -/
theorem C8_success_progress_sequence (env : Env) (doc : DocumentRequest)
    (store : Store)
    (h1 : env.stage1Fail = none) (h2 : env.stage2Fail = none)
    (h3 : env.stage3Fail = none) (h4 : env.completedPostFail = none) :
    progressWrites (process_document env doc store)
      = [0, 3/10, 6/10, 9/10, 1] ∧
    (progressWrites (process_document env doc store)).Chain' (· ≤ ·) := by
  have hw : progressWrites (process_document env doc store)
      = [0, 3/10, 6/10, 9/10, 1] := by
    simp [process_document, progressWrites, initJob, Job.setProgress,
      Job.markCompleted, h1, h2, h3, h4]
  refine ⟨hw, ?_⟩
  rw [hw]
  norm_num [List.chain'_cons]

/-- C8 witness: the no-failure run on document 1. -/
theorem C8_success_progress_sequence_witness :
    (envAllOk.stage1Fail = none ∧ envAllOk.stage2Fail = none ∧
     envAllOk.stage3Fail = none ∧ envAllOk.completedPostFail = none) ∧
    (progressWrites (process_document envAllOk doc1 Store.emptyStore)
       = [0, 3/10, 6/10, 9/10, 1] ∧
     (progressWrites
        (process_document envAllOk doc1 Store.emptyStore)).Chain' (· ≤ ·)) :=
  ⟨⟨rfl, rfl, rfl, rfl⟩,
   C8_success_progress_sequence envAllOk doc1 Store.emptyStore
     rfl rfl rfl rfl⟩

/-- C9: POST /process returns the acknowledgement built from the submitted
id alone — independent of content and metadata, with the store untouched
and the job merely queued behind the response, so nothing about the
terminal outcome is awaited or reported. -/
theorem C9_submit_immediate_ack (doc : DocumentRequest) (store : Store)
    (tasks : List DocumentRequest) :
    (start_processing doc store tasks).1 =
      { message := "Processing started", document_id := doc.document_id } ∧
    (start_processing doc store tasks).2.1 = store ∧
    (start_processing doc store tasks).2.2 = tasks ++ [doc] :=
  ⟨rfl, rfl, rfl⟩

/-- C10: when the first failure happens at a stage — before line 50 binds
the local `callback_url` — the record is still set to status "error", but
the handler's `requests.post(callback_url, ...)` references an unbound
local: no callback is posted at all and a NameError escapes the handler
uncaught. -/
theorem C10_unbound_callback_url (env : Env) (doc : DocumentRequest)
    (store : Store) (k : Fin 3) (msg : String)
    (hk : stageFail env k = some msg)
    (hfirst : ∀ i : Fin 3, i < k → stageFail env i = none) :
    ((process_document env doc store).store doc.document_id).map Job.status
      = some "error" ∧
    (process_document env doc store).posts = [] ∧
    (process_document env doc store).uncaught = some "NameError" := by
  fin_cases k
  · have h1 : env.stage1Fail = some msg := hk
    simp [process_document, handleStageError, Store.set, Job.markError,
      initJob, h1]
  · have h0 : env.stage1Fail = none := hfirst 0 (by decide)
    have h1 : env.stage2Fail = some msg := hk
    simp [process_document, handleStageError, Store.set, Job.markError,
      Job.setProgress, initJob, h0, h1]
  · have h0 : env.stage1Fail = none := hfirst 0 (by decide)
    have h1 : env.stage2Fail = none := hfirst 1 (by decide)
    have h2 : env.stage3Fail = some msg := hk
    simp [process_document, handleStageError, Store.set, Job.markError,
      Job.setProgress, initJob, h0, h1, h2]

/-- A run in which stage 2 raises. -/
def envStage2Fail : Env := { stage2Fail := some "oops" }

/-- C10 witness: stage 2 failing with "oops" on document 1. -/
theorem C10_unbound_callback_url_witness :
    (stageFail envStage2Fail 1 = some "oops" ∧
     ∀ i : Fin 3, i < 1 → stageFail envStage2Fail i = none) ∧
    (((process_document envStage2Fail doc1 Store.emptyStore).store
        doc1.document_id).map Job.status = some "error" ∧
     (process_document envStage2Fail doc1 Store.emptyStore).posts = [] ∧
     (process_document envStage2Fail doc1 Store.emptyStore).uncaught
       = some "NameError") :=
  ⟨⟨rfl, by decide⟩,
   C10_unbound_callback_url envStage2Fail doc1 Store.emptyStore 1 "oops"
     rfl (by decide)⟩
